import Mathlib

/-!
Verification development for the grohe_smarthome adapter sources.

The definitions below are a shallow embedding of the JavaScript sources:
  * `src/unnamed/part_002` (two `GroheApi` classes: the primary one with
    tagged error codes, called `Main` here, and a simple login-based one,
    called `Simple` here),
  * `src/unnamed/part_000` (the `GroheLogin` driver and a third `GroheApi`
    class without whitespace normalization, called `NoStrip` here),
  * `src/unnamed/part_001` (a `GroheApi` class whose refresh mirrors the
    `Main` structure, with JWT-derived endpoints),
  * `src/lib/login.js` (the `GroheLogin` class and `parseOndusLocation`),
  * `src/main.js` (two adapter classes; the second, refresh-token-only one
    carries the `tokenInvalid` guard).

Network I/O is made explicit: every axios call is represented by the
outcome the environment supplies for it (a status plus body, or no
response at all).  Axios' default `validateStatus` resolves exactly the
2xx statuses and otherwise throws an error carrying `response.status`;
that behaviour is part of the embedding.
-/

namespace Grohe

/-- JavaScript string truthiness of a nullable string field:
`null`/`undefined` and the empty string are falsy. -/
def jsTruthy : Option String → Bool
  | none => false
  | some s => s ≠ ""

/-- The character class of JavaScript's regex `\s` (whitespace). -/
def isJsWs (c : Char) : Bool :=
  c ∈ [' ', '\t', '\n', '\r', Char.ofNat 0x0b, Char.ofNat 0x0c,
    Char.ofNat 0xa0, Char.ofNat 0x1680, Char.ofNat 0x2000, Char.ofNat 0x2001,
    Char.ofNat 0x2002, Char.ofNat 0x2003, Char.ofNat 0x2004, Char.ofNat 0x2005,
    Char.ofNat 0x2006, Char.ofNat 0x2007, Char.ofNat 0x2008, Char.ofNat 0x2009,
    Char.ofNat 0x200a, Char.ofNat 0x2028, Char.ofNat 0x2029, Char.ofNat 0x202f,
    Char.ofNat 0x205f, Char.ofNat 0x3000, Char.ofNat 0xfeff]

/-- `String(x).replace(/\s+/g, '')`: removing every maximal whitespace run
is the same as removing every whitespace character. -/
def stripWs (s : String) : String :=
  String.mk (s.data.filter (fun c => !isJsWs c))

/-- Does `needle` occur as a contiguous sublist of the second list? -/
def hasSub (needle : List Char) : List Char → Bool
  | [] => needle.isEmpty
  | c :: rest => needle.isPrefixOf (c :: rest) || hasSub needle rest

/-- `hay.includes(needle)` on JavaScript strings. -/
def subIncludes (needle hay : String) : Bool :=
  hasSub needle.data hay.data

/-- `s.toLowerCase()` (ASCII-adequate model via `Char.toLower`). -/
def jsToLower (s : String) : String :=
  String.mk (s.data.map Char.toLower)

/-- The tagged error kinds (`err.code`) used by the `GroheApi` classes. -/
inductive ErrCode
  | NO_REFRESH_TOKEN
  | TOKEN_FORMAT_INVALID
  | NO_ISSUER
  | TOKEN_RESPONSE_INVALID
  | INVALID_REFRESH_TOKEN
  | TOKEN_REFRESH_FAILED
deriving DecidableEq, Repr

/-- The string carried in `err.code`. -/
def errCodeStr : ErrCode → String
  | .NO_REFRESH_TOKEN => "NO_REFRESH_TOKEN"
  | .TOKEN_FORMAT_INVALID => "TOKEN_FORMAT_INVALID"
  | .NO_ISSUER => "NO_ISSUER"
  | .TOKEN_RESPONSE_INVALID => "TOKEN_RESPONSE_INVALID"
  | .INVALID_REFRESH_TOKEN => "INVALID_REFRESH_TOKEN"
  | .TOKEN_REFRESH_FAILED => "TOKEN_REFRESH_FAILED"

/-- JSON body of a token-endpoint response: the two fields the code reads.
`none` models an absent field. -/
structure TokenBody where
  access_token : Option String
  refresh_token : Option String
deriving DecidableEq, Repr

/-- Outcome the network supplies for one token-endpoint call:
either the server answered with some status and body, or the call failed
without any response (timeout, DNS, ...). -/
inductive HttpResult
  | response (status : Nat) (body : TokenBody)
  | noResponse
deriving DecidableEq, Repr

/-- Axios' default `validateStatus`: resolve iff `200 <= s < 300`. -/
def isOkStatus (s : Nat) : Bool := 200 ≤ s && s < 300

/-- Token fields of a `GroheApi` instance (`this.accessToken`,
`this.refreshToken`; `none` is JavaScript `null`). -/
structure ApiState where
  accessToken : Option String
  refreshToken : Option String
deriving DecidableEq, Repr

/-- The value returned by a successful `refresh()`. -/
structure TokenPair where
  accessToken : String
  refreshToken : String
deriving DecidableEq, Repr

/-- An exception as seen by the `catch` clause of `refresh()`:
either an `Error` constructed inside the `try` body (which carries a
`code` but no `response`), or an axios error with `response.status`,
or an axios error without a response. -/
inductive RefreshExc
  | thrown (code : ErrCode)
  | httpStatus (status : Nat)
  | network
deriving DecidableEq, Repr

/-- `src/unnamed/part_002` lines 48-68 (identically `part_000` lines
376-394 and `part_001` lines 112-136, up to whitespace handling): the
`try` body of `refresh()`.  `rt` is the refresh token sent.  `strip`
selects whether resulting refresh tokens are whitespace-stripped
(`true` for part_002/part_001, `false` for part_000) and `retain` is
the value kept when the response carries no (truthy) `refresh_token`. -/
def refreshTryBody (strip : Bool) (retain : String) (net : HttpResult) :
    Except RefreshExc TokenPair :=
  match net with
  | .noResponse => .error .network
  | .response status body =>
    if isOkStatus status then
      if jsTruthy body.access_token then
        let at0 := body.access_token.getD ""
        let nrt :=
          if jsTruthy body.refresh_token then
            if strip then stripWs (body.refresh_token.getD "")
            else body.refresh_token.getD ""
          else retain
        .ok ⟨at0, nrt⟩
      else .error (.thrown .TOKEN_RESPONSE_INVALID)
    else .error (.httpStatus status)

/-- The `catch` clause of `refresh()` (`part_002` lines 69-86,
`part_000` lines 395-408, `part_001` lines 137-154): status 400/401
becomes `INVALID_REFRESH_TOKEN`, anything else (including errors thrown
inside the `try` body, which carry no response status) becomes
`TOKEN_REFRESH_FAILED`. -/
def refreshCatch (e : RefreshExc) : ErrCode :=
  match e with
  | .httpStatus 400 => .INVALID_REFRESH_TOKEN
  | .httpStatus 401 => .INVALID_REFRESH_TOKEN
  | _ => .TOKEN_REFRESH_FAILED

/-- `GroheApi.refresh` of `src/unnamed/part_002` lines 38-87 (primary
class): guard on a falsy refresh token, strip whitespace, POST, then the
`try`/`catch` mapping above.  On success both token fields are stored. -/
def refreshMain (st : ApiState) (net : HttpResult) :
    Except ErrCode TokenPair × ApiState :=
  if !jsTruthy st.refreshToken then (.error .NO_REFRESH_TOKEN, st)
  else
    let rt := stripWs (st.refreshToken.getD "")
    match refreshTryBody true rt net with
    | .ok p => (.ok p, ⟨some p.accessToken, some p.refreshToken⟩)
    | .error e => (.error (refreshCatch e), st)

/-- `GroheApi.refresh` of `src/unnamed/part_000` lines 368-409 (third
class): same structure but no whitespace stripping anywhere; when the
response has no truthy `refresh_token`, `this.refreshToken` is simply
left as it was. -/
def refreshNoStrip (st : ApiState) (net : HttpResult) :
    Except ErrCode TokenPair × ApiState :=
  if !jsTruthy st.refreshToken then (.error .NO_REFRESH_TOKEN, st)
  else
    match refreshTryBody false (st.refreshToken.getD "") net with
    | .ok p => (.ok p, ⟨some p.accessToken, some p.refreshToken⟩)
    | .error e => (.error (refreshCatch e), st)

/-- `GroheApi.refresh` of `src/unnamed/part_002` lines 156-166 (simple
class): no guards and no catch; on a 2xx response both fields are
overwritten unconditionally with whatever the body holds (absent fields
overwrite with `undefined`); otherwise the raw axios error propagates. -/
def refreshSimple (st : ApiState) (net : HttpResult) :
    Except RefreshExc Unit × ApiState :=
  match net with
  | .noResponse => (.error .network, st)
  | .response status body =>
    if isOkStatus status then
      (.ok (), ⟨body.access_token, body.refresh_token⟩)
    else (.error (.httpStatus status), st)

/-- `GroheApi.setRefreshToken` of `src/unnamed/part_002` lines 24-26
(and `part_001` lines 33-38): store `String(token || '')` with all
whitespace removed. -/
def setRefreshTokenMain (st : ApiState) (token : String) : ApiState :=
  { st with refreshToken := some (stripWs token) }

/-- `GroheApi.setRefreshToken` of `src/unnamed/part_000` lines 364-366:
store the token unchanged. -/
def setRefreshTokenNoStrip (st : ApiState) (token : String) : ApiState :=
  { st with refreshToken := some token }

/-! ## The authenticated-request wrapper `request(config, retry)` -/

/-- One observable action of `request()`: a call to `refresh()`, or an
HTTP API call carrying the given `Authorization` header value. -/
inductive Ev
  | refreshCall
  | apiCall (bearer : String)
deriving DecidableEq, Repr

/-- Outcome the network supplies for one `client.request(config)` call. -/
inductive ApiNet
  | reply (status : Nat)
  | down
deriving DecidableEq, Repr

/-- How one `request()` call ends. -/
inductive ReqOutcome
  | success (status : Nat)
  | refreshError (c : ErrCode)
  | refreshRaw (e : RefreshExc)
  | httpError (status : Nat)
  | netError
deriving DecidableEq, Repr

/-- Result of running `request()`: its outcome, the token state left
behind, and the ordered trace of refresh calls and issued API calls. -/
structure ReqResult where
  outcome : ReqOutcome
  state : ApiState
  events : List Ev
deriving DecidableEq, Repr

/-- The template string `Bearer ${this.accessToken}` (JavaScript renders
`null` as the text `null`). -/
def authHeader (t : Option String) : String :=
  "Bearer " ++ t.getD "null"

/-- `if (!this.accessToken) { await this.refresh(); }` — the
ensure-token step at the top of the primary `request()`
(`src/unnamed/part_002` lines 94-96, `part_000` lines 412-414,
`part_001` lines 163-165).  Consumes one refresh-endpoint outcome from
`renv` when a refresh is performed. -/
def ensureToken (st : ApiState) (renv : List HttpResult) :
    Except ErrCode ApiState × List HttpResult × List Ev :=
  if jsTruthy st.accessToken then (.ok st, renv, [])
  else
    match refreshMain st (renv.headD .noResponse) with
    | (.ok _, st1) => (.ok st1, renv.tail, [.refreshCall])
    | (.error c, _) => (.error c, renv.tail, [.refreshCall])

/-- The primary `request(config, false)` — the recursive call issued
after a 401-triggered refresh (`src/unnamed/part_002` lines 93-109 with
`retry = false`).  Returns the result together with the unconsumed
environments. -/
def requestNoRetry (st : ApiState) (renv : List HttpResult)
    (aenv : List ApiNet) : ReqResult × List HttpResult × List ApiNet :=
  match ensureToken st renv with
  | (.error c, renv1, evs) => (⟨.refreshError c, st, evs⟩, renv1, aenv)
  | (.ok st1, renv1, evs) =>
    let bearer := authHeader st1.accessToken
    match aenv.headD .down with
    | .reply s =>
      if isOkStatus s then
        (⟨.success s, st1, evs ++ [.apiCall bearer]⟩, renv1, aenv.tail)
      else
        (⟨.httpError s, st1, evs ++ [.apiCall bearer]⟩, renv1, aenv.tail)
    | .down => (⟨.netError, st1, evs ++ [.apiCall bearer]⟩, renv1, aenv.tail)

/-- The primary `request(config)` with `retry` at its default `true`
(`src/unnamed/part_002` lines 93-109, identically `part_000` lines
411-427 and `part_001` lines 162-178): ensure a token, attach
`Authorization: Bearer <accessToken>`, issue the call; on an HTTP 401
exception, `await this.refresh()` once and recurse with `retry=false`. -/
def requestRetry (st : ApiState) (renv : List HttpResult)
    (aenv : List ApiNet) : ReqResult :=
  match ensureToken st renv with
  | (.error c, _, evs) => ⟨.refreshError c, st, evs⟩
  | (.ok st1, renv1, evs) =>
    let bearer := authHeader st1.accessToken
    match aenv.headD .down with
    | .reply s =>
      if isOkStatus s then ⟨.success s, st1, evs ++ [.apiCall bearer]⟩
      else if s = 401 then
        match refreshMain st1 (renv1.headD .noResponse) with
        | (.error c, st2) =>
          ⟨.refreshError c, st2, evs ++ [.apiCall bearer, .refreshCall]⟩
        | (.ok _, st2) =>
          let r := (requestNoRetry st2 renv1.tail aenv.tail).1
          ⟨r.outcome, r.state, evs ++ [.apiCall bearer, .refreshCall] ++ r.events⟩
      else ⟨.httpError s, st1, evs ++ [.apiCall bearer]⟩
    | .down => ⟨.netError, st1, evs ++ [.apiCall bearer]⟩

/-- The simple class' `request(config, false)` (`src/unnamed/part_002`
lines 172-184 with `retry = false`): no ensure-token step — the header
is built from whatever `this.accessToken` holds, `null` included. -/
def requestSimpleNoRetry (st : ApiState) (aenv : List ApiNet) : ReqResult :=
  let bearer := authHeader st.accessToken
  match aenv.headD .down with
  | .reply s =>
    if isOkStatus s then ⟨.success s, st, [.apiCall bearer]⟩
    else ⟨.httpError s, st, [.apiCall bearer]⟩
  | .down => ⟨.netError, st, [.apiCall bearer]⟩

/-- The simple class' `request(config)` with `retry = true`
(`src/unnamed/part_002` lines 172-184): issue immediately (no refresh
even when no access token is held), and on a 401 exception call the
simple `refresh()` once and recurse with `retry=false`. -/
def requestSimpleRetry (st : ApiState) (renv : List HttpResult)
    (aenv : List ApiNet) : ReqResult :=
  let bearer := authHeader st.accessToken
  match aenv.headD .down with
  | .reply s =>
    if isOkStatus s then ⟨.success s, st, [.apiCall bearer]⟩
    else if s = 401 then
      match refreshSimple st (renv.headD .noResponse) with
      | (.error e, st1) => ⟨.refreshRaw e, st1, [.apiCall bearer, .refreshCall]⟩
      | (.ok _, st1) =>
        let r := requestSimpleNoRetry st1 aenv.tail
        ⟨r.outcome, r.state, [.apiCall bearer, .refreshCall] ++ r.events⟩
    else ⟨.httpError s, st, [.apiCall bearer]⟩
  | .down => ⟨.netError, st, [.apiCall bearer]⟩

/-! ## The HTML login-flow driver (`src/lib/login.js`, `src/unnamed/part_000`) -/

/-- The marker kinds recognised by `_detectKnownHtmlErrors`. -/
inductive HtmlErrKind
  | RESTART_COOKIE_NOT_FOUND
  | KEYCLOAK_SORRY_PAGE
  | INVALID_CREDENTIALS
  | MFA_REQUIRED
deriving DecidableEq, Repr

/-- `GroheLogin._detectKnownHtmlErrors` (`src/lib/login.js` lines
95-112, identically `src/unnamed/part_000` lines 73-90): falsy bodies
yield `null`; otherwise the four substring checks, in source order. -/
def detectKnownHtmlErrors (html : Option String) : Option HtmlErrKind :=
  match html with
  | none => none
  | some h =>
    if h = "" then none
    else if subIncludes "Restart login cookie not found" h then
      some .RESTART_COOKIE_NOT_FOUND
    else if subIncludes "We're sorry" h then some .KEYCLOAK_SORRY_PAGE
    else if subIncludes "Invalid username or password" h then
      some .INVALID_CREDENTIALS
    else if subIncludes "otp" (jsToLower h) || subIncludes "two-factor" (jsToLower h) then
      some .MFA_REQUIRED
    else none

/-- One HTTP response as inspected by the redirect loop: its status, the
`Location` header (`none` when absent), and the body when it is a string
(`typeof resp.data === 'string'`). -/
structure Resp where
  status : Nat
  location : Option String
  body : Option String
deriving DecidableEq, Repr

/-- `loc.startsWith('ondus://')`. -/
def isOndusLoc (l : String) : Bool :=
  "ondus://".data.isPrefixOf l.data

/-- How one pass over the `while (safety++ < 20)` body ends
(`src/lib/login.js` lines 309-351). -/
inductive LoopResult
  | tokens (loc : String)
  | htmlError (kind : HtmlErrKind)
  | htmlNoRedirect
  | unexpectedState (status : Nat)
  | restartCookie
  | exhausted
deriving DecidableEq, Repr

/-- The redirect-chain loop of `GroheLogin.login` (`src/lib/login.js`
lines 309-351): starting from the authenticate-POST response, inspect
the current response; a truthy `ondus://` `Location` is terminal
success; a truthy `Location` with status 302/303 chases the redirect
(the i-th chased GET is answered by `net i`); a 200 with a string body
is scanned for known markers, where `RESTART_COOKIE_NOT_FOUND` breaks
out to the next whole-flow attempt only when `attempt < 3`; anything
else throws.  `fuel` is the remaining iteration budget of
`safety++ < 20`; running out ends the loop without any throw.  The
second component counts chased redirects. -/
def redirectLoop (attempt : Nat) (net : Nat → Resp) :
    Nat → Resp → Nat → LoopResult × Nat
  | 0, _, chased => (.exhausted, chased)
  | fuel + 1, resp, chased =>
    if jsTruthy resp.location && isOndusLoc (resp.location.getD "") then
      (.tokens (resp.location.getD ""), chased)
    else if jsTruthy resp.location && (resp.status == 302 || resp.status == 303) then
      redirectLoop attempt net fuel (net chased) (chased + 1)
    else if resp.status == 200 && resp.body.isSome then
      match detectKnownHtmlErrors resp.body with
      | some k =>
        if k = .RESTART_COOKIE_NOT_FOUND && attempt < 3 then (.restartCookie, chased)
        else (.htmlError k, chased)
      | none => (.htmlNoRedirect, chased)
    else (.unexpectedState resp.status, chased)

/-- The environment one whole-flow attempt runs against: the response to
the authenticate POST, and the responses to the chased redirect GETs. -/
structure AttemptEnv where
  postResp : Resp
  net : Nat → Resp

/-- How `GroheLogin.login` ends. -/
inductive LoginResult
  | tokensOk (loc : String)
  | fatalHtml (kind : HtmlErrKind)
  | fatalNoRedirect
  | fatalUnexpected (status : Nat)
  | failedAfter3
deriving DecidableEq, Repr

/-- The `for (let attempt = 1; attempt <= 3; attempt++)` shell of
`GroheLogin.login` (`src/lib/login.js` lines 277-354): run the redirect
loop; terminal results return or throw immediately; both the
restart-cookie `break` and an exhausted `while` bound fall through to
the next attempt; when the loop runs out of attempts the final
`Login fehlgeschlagen (nach 3 Versuchen)` error is thrown.  `left` is
the number of attempts still available and `acc` accumulates the total
count of chased redirects. -/
def loginGo (env : Nat → AttemptEnv) : Nat → Nat → Nat → LoginResult × Nat
  | _, 0, acc => (.failedAfter3, acc)
  | attempt, left + 1, acc =>
    match redirectLoop attempt (env attempt).net 20 (env attempt).postResp 0 with
    | (.tokens loc, c) => (.tokensOk loc, acc + c)
    | (.htmlError k, c) => (.fatalHtml k, acc + c)
    | (.htmlNoRedirect, c) => (.fatalNoRedirect, acc + c)
    | (.unexpectedState s, c) => (.fatalUnexpected s, acc + c)
    | (.restartCookie, c) => loginGo env (attempt + 1) left (acc + c)
    | (.exhausted, c) => loginGo env (attempt + 1) left (acc + c)

/-- `GroheLogin.login` from the authenticate POST onwards: three
attempts, starting at attempt 1. -/
def loginModel (env : Nat → AttemptEnv) : LoginResult × Nat :=
  loginGo env 1 3 0

/-! ## URL query parsing (the platform `URL` / `URLSearchParams` classes)

`parseOndusLocation` delegates to the WHATWG `URL` class.  The helpers
below model the part of its behaviour the login driver relies on: the
query string is the text between the first `?` and the end (or a `#`),
and `searchParams` parses it with the `application/x-www-form-urlencoded`
algorithm (split on `&`, skip empty pieces, split each piece at its
first `=`, percent-decode and turn `+` into a space). -/

/-- Split a character list on every occurrence of `sep`. -/
def splitOnChar (sep : Char) : List Char → List (List Char)
  | [] => [[]]
  | c :: rest =>
    let r := splitOnChar sep rest
    if c = sep then [] :: r
    else
      match r with
      | [] => [[c]]
      | h :: t => (c :: h) :: t

/-- Join character lists with `sep` between them (inverse of
`splitOnChar` for separator-free parts). -/
def joinSep (sep : Char) : List (List Char) → List Char
  | [] => []
  | [p] => p
  | p :: ps => p ++ sep :: joinSep sep ps

/-- Split at the first occurrence of `sep`: the part before it and,
when `sep` occurs, the part after it. -/
def splitFirst (sep : Char) : List Char → List Char × Option (List Char)
  | [] => ([], none)
  | c :: rest =>
    if c = sep then ([], some rest)
    else
      let p := splitFirst sep rest
      (c :: p.1, p.2)

/-- Value of a hex digit, read off the code point (48-57 are the
digits, 97-102 lowercase a-f, 65-70 uppercase A-F). -/
def hexVal (c : Char) : Option Nat :=
  let n := c.toNat
  if 48 ≤ n && n ≤ 57 then some (n - 48)
  else if 97 ≤ n && n ≤ 102 then some (n - 87)
  else if 65 ≤ n && n ≤ 70 then some (n - 55)
  else none

/-- `application/x-www-form-urlencoded` percent-decoding: `+` becomes a
space, `%xy` becomes the character with code `xy`, malformed escapes
pass through unchanged. -/
def percentDecode : List Char → List Char
  | [] => []
  | '+' :: rest => ' ' :: percentDecode rest
  | '%' :: a :: b :: rest =>
    match hexVal a, hexVal b with
    | some x, some y => Char.ofNat (16 * x + y) :: percentDecode rest
    | _, _ => '%' :: percentDecode (a :: b :: rest)
  | c :: rest => c :: percentDecode rest

/-- Split one `k=v` piece at its first `=` (a piece without `=` is a
name with empty value). -/
def parsePair (piece : List Char) : List Char × List Char :=
  match splitFirst '=' piece with
  | (k, none) => (k, [])
  | (k, some v) => (k, v)

/-- Parse a query string into decoded name/value pairs
(`URLSearchParams` entries, in order, duplicates kept). -/
def parseQuery (q : List Char) : List (List Char × List Char) :=
  (splitOnChar '&' q).filterMap fun piece =>
    if piece = [] then none
    else
      let p := parsePair piece
      some (percentDecode p.1, percentDecode p.2)

/-- `searchParams.get(k)`: the first entry named `k`, or `null`. -/
def spGet (ps : List (List Char × List Char)) (k : List Char) :
    Option (List Char) :=
  (ps.find? fun p => p.1 == k).map (·.2)

/-- Reading `params[k]` after `for (const [k, v] of u.searchParams)
params[k] = v`: the last entry wins. -/
def objGetLast (ps : List (List Char × List Char)) (k : List Char) :
    Option (List Char) :=
  (ps.reverse.find? fun p => p.1 == k).map (·.2)

/-- The query component of a URL string: everything after the first `?`
and before a `#`. -/
def queryOf (u : List Char) : List Char :=
  match splitFirst '?' u with
  | (_, none) => []
  | (_, some rest) => (splitFirst '#' rest).1

/-- `location.replace(/^ondus:\/\//, 'https://')`. -/
def replaceOndus (loc : List Char) : List Char :=
  if "ondus://".data.isPrefixOf loc then "https://".data ++ loc.drop 8
  else loc

/-- Result of `parseOndusLocation` (`src/lib/login.js` lines 31-43):
the `https://` form of the location, and every query parameter. -/
structure OndusParsed where
  httpsUrl : List Char
  params : List (List Char × List Char)
deriving DecidableEq, Repr

/-- `parseOndusLocation` of `src/lib/login.js` lines 31-43: swap the
scheme, parse as a URL, and collect all `searchParams` entries. -/
def parseOndusLocation (location : List Char) : OndusParsed :=
  let httpsUrl := replaceOndus location
  ⟨httpsUrl, parseQuery (queryOf httpsUrl)⟩

/-- `parseOndusLocation` of `src/unnamed/part_000` lines 31-34: the older
variant returning only `searchParams.get('code')` and `...get('state')`. -/
def parseOndusLocationV0 (location : List Char) :
    Option (List Char) × Option (List Char) :=
  let ps := parseQuery (queryOf (replaceOndus location))
  (spGet ps "code".data, spGet ps "state".data)

/-- Characters that URL parsing and form-urlencoded decoding leave
untouched (no escapes, no separators, no spaces). -/
def plainChar (c : Char) : Bool :=
  c.isAlphanum || c = '-' || c = '_' || c = '.' || c = '~'

/-- A list of plain characters. -/
def plainL (l : List Char) : Bool := l.all plainChar

/-- Plain characters or `/` — what a URL path may contain here. -/
def pathPlainL (l : List Char) : Bool := l.all fun c => plainChar c || c = '/'

/-- Render name/value pairs as a query string `k1=v1&k2=v2&...`. -/
def renderQuery (qs : List (List Char × List Char)) : List Char :=
  joinSep '&' (qs.map fun p => p.1 ++ '=' :: p.2)

/-- Build `ondus://host/path?query` from its components. -/
def mkOndusUrl (host path : List Char)
    (qs : List (List Char × List Char)) : List Char :=
  "ondus://".data ++ host ++ '/' :: path ++ '?' :: renderQuery qs

/-! ## Login-form parsing (`GroheLogin._parseLoginForm`)

Cheerio turns the HTML text into a DOM; `_parseLoginForm` only reads the
first form element, its `action` attribute and its `input` elements'
`name`/`type`/`value` attributes.  The embedding starts from that
element view; the concrete HTML snippet of the spec scenario appears as
the `FormEl` value cheerio unambiguously parses it to. -/

/-- One `<input>` element: its `name`, `type` and `value` attributes
(`none` for an absent attribute). -/
structure InputEl where
  name : Option String
  type : Option String
  value : Option String
deriving DecidableEq, Repr

/-- The first `<form>` element: its `action` attribute and its inputs in
document order. -/
structure FormEl where
  action : Option String
  inputs : List InputEl
deriving DecidableEq, Repr

/-- Is the key present in the field object (`name in fields`)? -/
def objHas (m : List (String × String)) (k : String) : Bool :=
  m.any fun p => p.1 == k

/-- `fields[k] = v` on a plain object: overwrite in place when the key
exists, else append. -/
def objInsert (m : List (String × String)) (k v : String) :
    List (String × String) :=
  if objHas m k then m.map fun p => if p.1 == k then (k, v) else p
  else m ++ [(k, v)]

/-- Read `fields[k]` from the field object. -/
def objGet (m : List (String × String)) (k : String) : Option String :=
  (m.find? fun p => p.1 == k).map (·.2)

/-- `src/lib/login.js` lines 157-165: collect every named input into the
field object, defaulting a missing `value` attribute to the empty
string; inputs with a falsy `name` are skipped. -/
def collectFields (inputs : List InputEl) : List (String × String) :=
  inputs.foldl
    (fun m i =>
      match i.name with
      | none => m
      | some n => if n = "" then m else objInsert m n (i.value.getD ""))
    []

/-- `src/lib/login.js` lines 167-177: the name of the first input whose
lowercased `type` is `password` (inputs with a falsy name skipped). -/
def findPassField (inputs : List InputEl) : Option String :=
  (inputs.find? fun i =>
    jsTruthy i.name && (jsToLower (i.type.getD "") == "password")).bind
    (·.name)

/-- `src/lib/login.js` lines 186-189: the fallback username field — the
first input matching the selector `input[type="text"], input[type="email"]`,
its `name` attribute, or the literal `username` when that is falsy. -/
def findUserFieldFallback (inputs : List InputEl) : String :=
  match inputs.find? fun i => i.type == some "text" || i.type == some "email" with
  | some i => match i.name with
    | some n => if n = "" then "username" else n
    | none => "username"
  | none => "username"

/-- `decodeHtmlEntities` (`src/lib/login.js` lines 18-20):
`replace(/&amp;/g, '&')`. -/
def decodeAmpL : List Char → List Char
  | [] => []
  | '&' :: 'a' :: 'm' :: 'p' :: ';' :: rest => '&' :: decodeAmpL rest
  | c :: rest => c :: decodeAmpL rest

/-- `toAbsUrl` (`src/lib/login.js` lines 8-16): falsy inputs give
`null`; absolute URLs pass through; otherwise resolve against the base
(modelled for root-relative references, the only shape the identity
provider serves: `new URL('/p', base)` is the origin of `base`
followed by `/p`). -/
def toAbsUrl (base : List Char) (rel : Option String) : Option (List Char) :=
  match rel with
  | none => none
  | some r =>
    if r = "" then none
    else if "http://".data.isPrefixOf r.data || "https://".data.isPrefixOf r.data then
      some r.data
    else
      match r.data with
      | '/' :: _ =>
        match splitFirst '/' (base.drop 8) with
        | (hostPart, _) => some (base.take 8 ++ hostPart ++ r.data)
      | _ => some (base ++ r.data)

/-- The value `_parseLoginForm` returns. -/
structure ParsedForm where
  actionUrl : Option (List Char)
  fields : List (String × String)
  userField : String
  passField : String
deriving DecidableEq, Repr

/-- `GroheLogin._parseLoginForm` (`src/lib/login.js` lines 145-203,
identically `src/unnamed/part_000` lines 123-180), from the element view
of the page: a falsy `action` throws; otherwise decode and absolutize
the action, collect the fields, pick the password field (defaulting to
`password`), pick the username field (the first of
`username`/`email`/`usernameOrEmail` present, else the selector
fallback), and inject `credentialId` with an empty value when no such
field exists. -/
def parseLoginForm (authUrl : List Char) (form : FormEl) :
    Except String ParsedForm :=
  match form.action with
  | none => .error "Login-Form action nicht gefunden"
  | some a =>
    if a = "" then .error "Login-Form action nicht gefunden"
    else
      let action := decodeAmpL a.data
      let actionUrl := toAbsUrl authUrl (some (String.mk action))
      let fields0 := collectFields form.inputs
      let passField := (findPassField form.inputs).getD "password"
      let userField :=
        match ["username", "email", "usernameOrEmail"].find? (objHas fields0) with
        | some c => c
        | none => findUserFieldFallback form.inputs
      let fields :=
        if objHas fields0 "credentialId" then fields0
        else fields0 ++ [("credentialId", "")]
      .ok ⟨actionUrl, fields, userField, passField⟩

/-- The element view of the spec scenario HTML
`<form action="/login"><input name="username"/>`
`<input name="password" type="password"/></form>`. -/
def specForm : FormEl :=
  ⟨some "/login",
   [⟨some "username", none, none⟩, ⟨some "password", some "password", none⟩]⟩

/-! ## The refresh-token-only adapter (`src/main.js`, second class) -/

/-- The adapter instance fields the token-invalid guard involves:
whether `this.api` is set, whether the poll timer is active, the
`tokenInvalid` flag, and the `info.connection` indicator. -/
structure AdapterState where
  apiInit : Bool
  pollTimer : Bool
  tokenInvalid : Bool
  connection : Bool
deriving DecidableEq, Repr

/-- `GroheSmarthome.handleTokenOrInitError` (`src/main.js` lines
837-859): always drop the connection/token-valid indicators; when the
extracted code is `INVALID_REFRESH_TOKEN`, additionally set
`tokenInvalid` and clear the poll timer. -/
def handleTokenOrInitError (s : AdapterState) (code : String) : AdapterState :=
  let s1 := { s with connection := false }
  if code = "INVALID_REFRESH_TOKEN" then
    { s1 with tokenInvalid := true, pollTimer := false }
  else s1

/-- The inputs `onStateChange(id, state)` branches on: whether `state`
is non-null, its `ack` flag, and whether `id` ends in one of the handled
suffixes (`.setValve` / `.dispenseWater`). -/
structure StateChangeInput where
  present : Bool
  ack : Bool
  handled : Bool
deriving DecidableEq, Repr

/-- Externally triggered entry points of the refresh-token-only adapter
after startup: a scheduled poll (with the poll request's success flag),
a state change, a routed token/init error, and `onUnload`. -/
inductive AdEvent
  | poll (ok : Bool)
  | stateChange (inp : StateChangeInput)
  | tokenError (code : String)
  | unload
deriving DecidableEq, Repr

/-- One entry-point invocation: the successor state and the number of
vendor API requests issued by it.  `pollDevices` (`src/main.js` lines
584-610) returns before its `api.request` when `api` is missing or
`tokenInvalid` is set; `onStateChange` (lines 707-755) returns before
any `api.request` when the state is null/acked, `api` is missing, or
`tokenInvalid` is set. -/
def adapterStep (s : AdapterState) : AdEvent → AdapterState × Nat
  | .poll ok =>
    if !s.apiInit then (s, 0)
    else if s.tokenInvalid then (s, 0)
    else ({ s with connection := ok }, 1)
  | .stateChange inp =>
    if !inp.present || inp.ack then (s, 0)
    else if !s.apiInit then (s, 0)
    else if s.tokenInvalid then (s, 0)
    else (s, if inp.handled then 1 else 0)
  | .tokenError c => (handleTokenOrInitError s c, 0)
  | .unload => ({ s with pollTimer := false, apiInit := false }, 0)

/-- Run a sequence of entry-point invocations, counting every vendor API
request issued along the way. -/
def adapterRun : AdapterState → List AdEvent → AdapterState × Nat
  | s, [] => (s, 0)
  | s, e :: es =>
    let p := adapterStep s e
    let q := adapterRun p.1 es
    (q.1, p.2 + q.2)

/-- A response that keeps the redirect chase going: status 302 with a
truthy, non-`ondus://` `Location`. -/
def is302Chase (r : Resp) : Bool :=
  r.status == 302 && jsTruthy r.location && !isOndusLoc (r.location.getD "")

/-- A mock server that always answers 302 with a fresh non-terminal
`Location` (the redirect-chain-bound scenario). -/
def always302Env : Nat → AttemptEnv :=
  fun _ => ⟨⟨302, some "https://next.example/a", none⟩,
    fun _ => ⟨302, some "https://next.example/a", none⟩⟩

/-- An HTML body containing both the restart-cookie marker and the
invalid-credentials marker. -/
def bothMarkersHtml : String :=
  "Restart login cookie not found: Invalid username or password"

/-- An environment whose first attempt immediately yields a 200 page
with `bothMarkersHtml`, and whose later attempts yield a bare 500
(so reaching the 500 outcome proves a second attempt ran). -/
def bothMarkersEnv : Nat → AttemptEnv :=
  fun a =>
    if a = 1 then ⟨⟨200, none, some bothMarkersHtml⟩, fun _ => ⟨500, none, none⟩⟩
    else ⟨⟨500, none, none⟩, fun _ => ⟨500, none, none⟩⟩

/-- An environment whose every attempt immediately yields a 200 page
whose body is exactly the invalid-credentials marker. -/
def invalidCredEnv : Nat → AttemptEnv :=
  fun _ => ⟨⟨200, none, some "Invalid username or password"⟩,
    fun _ => ⟨500, none, none⟩⟩

/-! ## Helper lemmas -/

/-- Once `tokenInvalid` is set, any single entry-point invocation issues
no vendor API request and leaves the flag set. -/
theorem adapterStep_latched (s : AdapterState) (e : AdEvent)
    (h : s.tokenInvalid = true) :
    (adapterStep s e).1.tokenInvalid = true ∧ (adapterStep s e).2 = 0 := by
  cases e with
  | poll ok =>
    cases hA : s.apiInit <;> simp [adapterStep, h, hA]
  | stateChange inp =>
    cases hP : inp.present <;> cases hK : inp.ack <;> cases hA : s.apiInit <;>
      simp [adapterStep, h, hP, hK, hA]
  | tokenError c =>
    by_cases hc : c = "INVALID_REFRESH_TOKEN" <;>
      simp [adapterStep, handleTokenOrInitError, h, hc]
  | unload => simp [adapterStep, h]

/-- Once `tokenInvalid` is set, any sequence of entry-point invocations
issues no vendor API request and leaves the flag set. -/
theorem adapterRun_latched (es : List AdEvent) (s : AdapterState)
    (h : s.tokenInvalid = true) :
    (adapterRun s es).2 = 0 ∧ (adapterRun s es).1.tokenInvalid = true := by
  induction es generalizing s with
  | nil => exact ⟨rfl, h⟩
  | cons e es ih =>
    have h1 := adapterStep_latched s e h
    have h2 := ih (adapterStep s e).1 h1.1
    simp [adapterRun, h1.2, h2.1, h2.2]

/-- Chasing responses that always redirect non-terminally exhausts the
`safety` budget, chasing one redirect per remaining unit of fuel. -/
theorem redirectLoop_exhausts (attempt : Nat) (net : Nat → Resp)
    (fuel : Nat) :
    ∀ (resp : Resp) (chased : Nat), is302Chase resp = true →
      (∀ i, is302Chase (net i) = true) →
      redirectLoop attempt net fuel resp chased = (.exhausted, chased + fuel) := by
  induction fuel with
  | zero => intro resp chased _ _; simp [redirectLoop]
  | succ fuel ih =>
    intro resp chased hresp hnet
    simp only [is302Chase, Bool.and_eq_true, beq_iff_eq, Bool.not_eq_true'] at hresp
    obtain ⟨⟨h302, htr⟩, hnon⟩ := hresp
    have step : redirectLoop attempt net (fuel + 1) resp chased =
        redirectLoop attempt net fuel (net chased) (chased + 1) := by
      simp [redirectLoop, htr, hnon, h302]
    rw [step, ih (net chased) (chased + 1) (hnet chased) hnet]
    have harith : chased + 1 + fuel = chased + (fuel + 1) := by omega
    rw [harith]

/-! ## Claim theorems -/

/-- C1: for every token-lifecycle state holding an access token `A` and a
(truthy) refresh token `R`, a `refresh()` answered with HTTP 400 or 401
fails with kind `INVALID_REFRESH_TOKEN` and leaves both stored token
fields exactly as they were — in the primary `part_002` variant and in
the `part_000` variant alike. -/
theorem refresh_400_401_invalid_token_no_mutation
    (A R : String) (b : TokenBody) (s : Nat)
    (hR : R ≠ "") (hs : s = 400 ∨ s = 401) :
    refreshMain ⟨some A, some R⟩ (.response s b) =
      (.error .INVALID_REFRESH_TOKEN, ⟨some A, some R⟩) ∧
    refreshNoStrip ⟨some A, some R⟩ (.response s b) =
      (.error .INVALID_REFRESH_TOKEN, ⟨some A, some R⟩) := by
  rcases hs with h | h <;> subst h <;>
    simp [refreshMain, refreshNoStrip, refreshTryBody, refreshCatch,
      jsTruthy, isOkStatus, hR]

/-- C1 witness: the theorem applied at a concrete state and a concrete
401 response. -/
theorem refresh_400_401_invalid_token_no_mutation_witness :
    refreshMain ⟨some "A", some "R"⟩ (.response 401 ⟨none, none⟩) =
      (.error .INVALID_REFRESH_TOKEN, ⟨some "A", some "R"⟩) ∧
    refreshNoStrip ⟨some "A", some "R"⟩ (.response 401 ⟨none, none⟩) =
      (.error .INVALID_REFRESH_TOKEN, ⟨some "A", some "R"⟩) :=
  refresh_400_401_invalid_token_no_mutation "A" "R" ⟨none, none⟩ 401
    (by decide) (Or.inr rfl)

/-- C3 counterexample: the claim also covers the simple `part_002`
class (cited as `GroheApi.refresh (second variant)`), whose `refresh()`
overwrites `this.refreshToken` unconditionally.  At the state holding
refresh token `R`, a successful HTTP 200 response carrying an
`access_token` but no `refresh_token` clears the stored refresh token
to `undefined` instead of retaining `R`. -/
theorem refreshSimple_clears_refresh_token :
    (refreshSimple ⟨some "A0", some "R"⟩ (.response 200 ⟨some "A", none⟩)).2 =
      ⟨some "A", none⟩ ∧
    (⟨some "A", none⟩ : ApiState).refreshToken ≠ some "R" := by
  exact ⟨rfl, by decide⟩

/-- C3 (amended to the two guarded variants): on a successful
`refresh()` (2xx with a truthy `access_token`), the returned access
token is stored; a truthy `refresh_token` in the response replaces the
stored one (whitespace-stripped in the primary variant, verbatim in the
`part_000` variant); otherwise the previously stored refresh token is
retained (for the primary variant: its whitespace-stripped form, which
is the token itself for the whitespace-free tokens the setters store). -/
theorem refresh_success_stores_and_rotates
    (a0 : Option String) (R atk r : String) (status : Nat)
    (hR : R ≠ "") (hRs : stripWs R = R)
    (hok : isOkStatus status = true) (hat : atk ≠ "") (hr : r ≠ "") :
    refreshMain ⟨a0, some R⟩ (.response status ⟨some atk, none⟩) =
      (.ok ⟨atk, R⟩, ⟨some atk, some R⟩) ∧
    refreshNoStrip ⟨a0, some R⟩ (.response status ⟨some atk, none⟩) =
      (.ok ⟨atk, R⟩, ⟨some atk, some R⟩) ∧
    refreshMain ⟨a0, some R⟩ (.response status ⟨some atk, some r⟩) =
      (.ok ⟨atk, stripWs r⟩, ⟨some atk, some (stripWs r)⟩) ∧
    refreshNoStrip ⟨a0, some R⟩ (.response status ⟨some atk, some r⟩) =
      (.ok ⟨atk, r⟩, ⟨some atk, some r⟩) := by
  refine ⟨?_, ?_, ?_, ?_⟩ <;>
    simp [refreshMain, refreshNoStrip, refreshTryBody, jsTruthy,
      hok, hat, hR, hRs, hr]

/-- C3 witness: the amended theorem applied at a concrete state, with a
rotating and a non-rotating concrete 200 response. -/
theorem refresh_success_stores_and_rotates_witness :
    refreshMain ⟨some "A0", some "R"⟩ (.response 200 ⟨some "A", none⟩) =
      (.ok ⟨"A", "R"⟩, ⟨some "A", some "R"⟩) ∧
    refreshNoStrip ⟨some "A0", some "R"⟩ (.response 200 ⟨some "A", none⟩) =
      (.ok ⟨"A", "R"⟩, ⟨some "A", some "R"⟩) ∧
    refreshMain ⟨some "A0", some "R"⟩ (.response 200 ⟨some "A", some "B"⟩) =
      (.ok ⟨"A", stripWs "B"⟩, ⟨some "A", some (stripWs "B")⟩) ∧
    refreshNoStrip ⟨some "A0", some "R"⟩ (.response 200 ⟨some "A", some "B"⟩) =
      (.ok ⟨"A", "B"⟩, ⟨some "A", some "B"⟩) :=
  refresh_success_stores_and_rotates (some "A0") "R" "A" "B" 200
    (by decide) (by decide) (by decide) (by decide) (by decide)

/-- C4: a `refresh()` answered with HTTP 200 but no `access_token` does
NOT surface kind `TOKEN_RESPONSE_INVALID`: the error constructed with
that code inside the `try` block is caught by the surrounding `catch`,
whose `e?.response?.status` is `undefined` for it, so it is re-wrapped
and surfaced as `TOKEN_REFRESH_FAILED` — in the primary `part_002`
variant and in the `part_000` variant alike (the `part_001` variant has
the same `try`/`catch` shape). -/
theorem refresh_missing_access_token_surfaces_refresh_failed :
    refreshMain ⟨none, some "R"⟩ (.response 200 ⟨none, none⟩) =
      (.error .TOKEN_REFRESH_FAILED, ⟨none, some "R"⟩) ∧
    refreshNoStrip ⟨none, some "R"⟩ (.response 200 ⟨none, none⟩) =
      (.error .TOKEN_REFRESH_FAILED, ⟨none, some "R"⟩) ∧
    ErrCode.TOKEN_REFRESH_FAILED ≠ ErrCode.TOKEN_RESPONSE_INVALID := by
  exact ⟨rfl, rfl, by decide⟩

/-- C8: on the element view of
`<form action="/login"><input name="username"/>`
`<input name="password" type="password"/></form>`, `_parseLoginForm`
identifies `userField = "username"` and `passField = "password"`, and
its returned field map contains `credentialId` with value `""` even
though no input of that name exists in the form. -/
theorem parseLoginForm_spec_scenario :
    ((parseLoginForm "https://auth.example/realms/login".data specForm).toOption.map
      fun r => (r.userField, r.passField, objGet r.fields "credentialId")) =
      some ("username", "password", some "") ∧
    specForm.inputs.all (fun i => i.name ≠ some "credentialId") = true := by
  exact ⟨rfl, by decide⟩

/-- C9 counterexample: the claim also covers the `part_000` class (cited
as `src/unnamed/part_000` lines 364-366), whose `setRefreshToken` stores
the token verbatim: the input `"a b"` is stored with its space, not as
the whitespace-stripped `"ab"`. -/
theorem setRefreshTokenNoStrip_keeps_whitespace :
    (setRefreshTokenNoStrip ⟨none, none⟩ "a b").refreshToken = some "a b" ∧
    stripWs "a b" = "ab" ∧
    (some "a b" : Option String) ≠ some "ab" := by
  exact ⟨rfl, by decide, by decide⟩

/-- C9 (amended to the variants that normalize): `setRefreshToken` in
the `part_002` and `part_001` classes stores the input with every
whitespace character removed; the `part_000` class stores the token
unchanged (its caller in `src/main.js` strips whitespace before the
call). -/
theorem setRefreshToken_normalization (st : ApiState) (token : String) :
    (setRefreshTokenMain st token).refreshToken = some (stripWs token) ∧
    (setRefreshTokenNoStrip st token).refreshToken = some token :=
  ⟨rfl, rfl⟩

/-- C10: once `handleTokenOrInitError` has handled an error whose kind
is `INVALID_REFRESH_TOKEN`, the `tokenInvalid` flag is set and the poll
timer is cleared, and every subsequent sequence of `pollDevices` /
`onStateChange` / error / unload invocations issues zero vendor API
requests and leaves the flag set (nothing resets it before a process
restart). -/
theorem tokenInvalid_latches (s : AdapterState) (es : List AdEvent) :
    (handleTokenOrInitError s (errCodeStr .INVALID_REFRESH_TOKEN)).tokenInvalid = true ∧
    (handleTokenOrInitError s (errCodeStr .INVALID_REFRESH_TOKEN)).pollTimer = false ∧
    (adapterRun (handleTokenOrInitError s (errCodeStr .INVALID_REFRESH_TOKEN)) es).2 = 0 ∧
    (adapterRun (handleTokenOrInitError s (errCodeStr .INVALID_REFRESH_TOKEN)) es).1.tokenInvalid = true := by
  have hinv : (handleTokenOrInitError s (errCodeStr .INVALID_REFRESH_TOKEN)).tokenInvalid = true := by
    simp [handleTokenOrInitError, errCodeStr]
  have h := adapterRun_latched es _ hinv
  exact ⟨hinv, by simp [handleTokenOrInitError, errCodeStr], h.1, h.2⟩

/-- C2 counterexample: the claim also covers the simple `part_002`
class (cited as `GroheApi.request (second variant)`), whose `request()`
has no ensure-token step: with no access token held it issues the first
request immediately — the header is the literal `Bearer null` and no
refresh call precedes the first issued request. -/
theorem requestSimple_issues_before_refresh :
    (requestSimpleRetry ⟨none, some "R"⟩ [.response 200 ⟨some "A", some "B"⟩]
      [.reply 401, .reply 200]).events =
      [.apiCall "Bearer null", .refreshCall, .apiCall "Bearer A"] ∧
    (requestSimpleRetry ⟨none, some "R"⟩ [.response 200 ⟨some "A", some "B"⟩]
      [.reply 401, .reply 200]).events.head? = some (.apiCall "Bearer null") := by
  exact ⟨rfl, rfl⟩

/-- C2 (amended to the primary variant): with no access token held,
`request(config)` with default `retry = true` refreshes once before
issuing, attaches `Authorization: Bearer <accessToken>`, and on a 401
performs exactly one refresh-and-retry cycle: the trace is refresh,
request with the first token, refresh, request with the second token —
and nothing more, whatever the second status is; a second 401 is not a
2xx, so it surfaces as a failure. -/
theorem requestRetry_single_retry_cycle
    (R A1 A2 : String) (s2 : Nat) (rtl : List HttpResult) (atl : List ApiNet)
    (hR : R ≠ "") (hRs : stripWs R = R) (hA1 : A1 ≠ "") (hA2 : A2 ≠ "") :
    requestRetry ⟨none, some R⟩
      (.response 200 ⟨some A1, none⟩ :: .response 200 ⟨some A2, none⟩ :: rtl)
      (.reply 401 :: .reply s2 :: atl) =
      ⟨if isOkStatus s2 then .success s2 else .httpError s2,
       ⟨some A2, some R⟩,
       [.refreshCall, .apiCall ("Bearer " ++ A1), .refreshCall,
        .apiCall ("Bearer " ++ A2)]⟩ ∧
    isOkStatus 401 = false := by
  have h200 : isOkStatus 200 = true := rfl
  have h401 : isOkStatus 401 = false := rfl
  refine ⟨?_, rfl⟩
  by_cases hok : isOkStatus s2 = true <;>
    simp [requestRetry, requestNoRetry, ensureToken, refreshMain,
      refreshTryBody, jsTruthy, authHeader, hR, hRs, hA1, hA2, h200, h401, hok]

/-- C2 witness: the amended theorem applied at concrete tokens with a
second 401. -/
theorem requestRetry_single_retry_cycle_witness :
    requestRetry ⟨none, some "r"⟩
      [.response 200 ⟨some "a", none⟩, .response 200 ⟨some "b", none⟩]
      [.reply 401, .reply 401] =
      ⟨if isOkStatus 401 then .success 401 else .httpError 401,
       ⟨some "b", some "r"⟩,
       [.refreshCall, .apiCall ("Bearer " ++ "a"), .refreshCall,
        .apiCall ("Bearer " ++ "b")]⟩ ∧
    isOkStatus 401 = false :=
  requestRetry_single_retry_cycle "r" "a" "b" 401 [] []
    (by decide) (by decide) (by decide) (by decide)

/-- C5 counterexample: against a server that always answers 302 with a
non-terminal `Location`, the driver does not stop with an
unexpected-state error after 20 chased redirects: each attempt's
`while` bound runs out silently, the whole flow restarts, and after 3
attempts (60 chased redirects) the terminal error is the
after-3-attempts failure. -/
theorem login_always302_runs_three_attempts :
    loginModel always302Env = (.failedAfter3, 60) ∧ (60 : Nat) ≠ 20 := by
  exact ⟨rfl, by decide⟩

/-- All-302 environments make every attempt exhaust its 20-redirect
budget and fall through to the next attempt. -/
theorem loginGo_all302 (env : Nat → AttemptEnv)
    (hpost : ∀ a, is302Chase (env a).postResp = true)
    (hnet : ∀ a i, is302Chase ((env a).net i) = true) :
    ∀ (left attempt acc : Nat),
      loginGo env attempt left acc = (.failedAfter3, acc + 20 * left) := by
  intro left
  induction left with
  | zero => intro attempt acc; simp [loginGo]
  | succ left ih =>
    intro attempt acc
    have e := redirectLoop_exhausts attempt (env attempt).net 20
      (env attempt).postResp 0 (hpost attempt) (hnet attempt)
    have harith : acc + (0 + 20) + 20 * left = acc + 20 * (left + 1) := by ring
    simp only [loginGo, e, ih (attempt + 1) (acc + (0 + 20))]
    rw [harith]

/-- C5 (amended): for every environment that always answers 302 with a
truthy non-`ondus://` `Location`, each attempt chases exactly 20
redirects, the exhausted bound restarts the whole flow instead of
throwing, and the driver ends after 3 attempts and 60 chased redirects
with the after-3-attempts error (not an unexpected-state error). -/
theorem login_redirect_bound_restarts_flow (env : Nat → AttemptEnv)
    (hpost : ∀ a, is302Chase (env a).postResp = true)
    (hnet : ∀ a i, is302Chase ((env a).net i) = true) :
    loginModel env = (.failedAfter3, 60) := by
  have h := loginGo_all302 env hpost hnet 3 1 0
  simpa [loginModel] using h

/-- C5 witness: the amended theorem applied to the concrete always-302
environment. -/
theorem login_redirect_bound_restarts_flow_witness :
    loginModel always302Env = (.failedAfter3, 60) :=
  login_redirect_bound_restarts_flow always302Env
    (fun _ => rfl) (fun _ _ => rfl)

/-- C7 counterexample: an HTML body containing the invalid-credentials
substring together with the restart-cookie marker is classified as
`RESTART_COOKIE_NOT_FOUND` (checked first) — and it does trigger a
whole-flow retry: the flow ends with the second attempt's 500 outcome,
proving another login attempt was started. -/
theorem bothMarkers_triggers_flow_retry :
    subIncludes "Invalid username or password" bothMarkersHtml = true ∧
    detectKnownHtmlErrors (some bothMarkersHtml) =
      some .RESTART_COOKIE_NOT_FOUND ∧
    loginModel bothMarkersEnv = (.fatalUnexpected 500, 0) := by
  exact ⟨by decide, rfl, rfl⟩

/-- C7 (amended): every HTML body whose detected marker is the
invalid-credentials one — it contains
`Invalid username or password` and neither of the two markers checked
before it — is classified `INVALID_CREDENTIALS`; a 200 response with
such a body ends the redirect loop with that fatal kind, and the login
flow terminates with it immediately, independently of how many attempts
remain (no whole-flow retry). -/
theorem invalid_credentials_fatal_no_retry (body : String)
    (hinv : subIncludes "Invalid username or password" body = true)
    (hres : subIncludes "Restart login cookie not found" body = false)
    (hsor : subIncludes "We're sorry" body = false) :
    detectKnownHtmlErrors (some body) = some .INVALID_CREDENTIALS ∧
    (∀ (attempt : Nat) (net : Nat → Resp) (fuel chased : Nat),
      redirectLoop attempt net (fuel + 1) ⟨200, none, some body⟩ chased =
        (.htmlError .INVALID_CREDENTIALS, chased)) ∧
    (∀ (env : Nat → AttemptEnv) (attempt n acc : Nat),
      (env attempt).postResp = ⟨200, none, some body⟩ →
      loginGo env attempt (n + 1) acc =
        (.fatalHtml .INVALID_CREDENTIALS, acc)) := by
  have hne : body ≠ "" := by
    intro h
    rw [h] at hinv
    exact absurd hinv (by decide)
  have hdet : detectKnownHtmlErrors (some body) = some .INVALID_CREDENTIALS := by
    simp [detectKnownHtmlErrors, hne, hres, hsor, hinv]
  have hloop : ∀ (attempt : Nat) (net : Nat → Resp) (fuel chased : Nat),
      redirectLoop attempt net (fuel + 1) ⟨200, none, some body⟩ chased =
        (.htmlError .INVALID_CREDENTIALS, chased) := by
    intro attempt net fuel chased
    simp [redirectLoop, jsTruthy, hdet]
  refine ⟨hdet, hloop, ?_⟩
  intro env attempt n acc hpost
  have h20 : redirectLoop attempt (env attempt).net 20
      (env attempt).postResp 0 = (.htmlError .INVALID_CREDENTIALS, 0) := by
    rw [hpost]
    exact hloop attempt (env attempt).net 19 0
  simp only [loginGo, h20, Nat.add_zero]

/-- C7 witness: the amended theorem applied at the body that is exactly
the invalid-credentials marker, with its loop and flow clauses
instantiated on the concrete `invalidCredEnv`. -/
theorem invalid_credentials_fatal_no_retry_witness :
    detectKnownHtmlErrors (some "Invalid username or password") =
      some .INVALID_CREDENTIALS ∧
    redirectLoop 1 (invalidCredEnv 1).net 20
      ⟨200, none, some "Invalid username or password"⟩ 0 =
      (.htmlError .INVALID_CREDENTIALS, 0) ∧
    loginGo invalidCredEnv 1 3 0 = (.fatalHtml .INVALID_CREDENTIALS, 0) := by
  obtain ⟨h1, h2, h3⟩ := invalid_credentials_fatal_no_retry
    "Invalid username or password" (by decide) (by decide) (by decide)
  exact ⟨h1, h2 1 (invalidCredEnv 1).net 19 0, h3 invalidCredEnv 1 2 0 rfl⟩

/-! ## Lemmas for the `parseOndusLocation` round trip -/

/-- Membership form of `plainL`. -/
theorem plainL_mem {l : List Char} {c : Char} (h : plainL l = true)
    (hc : c ∈ l) : plainChar c = true := by
  simp only [plainL, List.all_eq_true] at h
  exact h c hc

/-- Membership form of `pathPlainL`. -/
theorem pathPlainL_mem {l : List Char} {c : Char} (h : pathPlainL l = true)
    (hc : c ∈ l) : plainChar c = true ∨ c = '/' := by
  simp only [pathPlainL, List.all_eq_true] at h
  have h2 := h c hc
  simp only [Bool.or_eq_true, decide_eq_true_eq] at h2
  exact h2

/-- `splitFirst` on a list not containing the separator. -/
theorem splitFirst_not_mem (sep : Char) (l : List Char) (h : sep ∉ l) :
    splitFirst sep l = (l, none) := by
  induction l with
  | nil => rfl
  | cons c rest ih =>
    have hc : ¬ c = sep := fun hh => h (by rw [← hh]; exact List.mem_cons_self c rest)
    simp [splitFirst, hc, ih (fun hm => h (List.mem_cons_of_mem c hm))]

/-- `splitFirst` finds the first separator after a separator-free head. -/
theorem splitFirst_append_sep (sep : Char) (a b : List Char) (h : sep ∉ a) :
    splitFirst sep (a ++ sep :: b) = (a, some b) := by
  induction a with
  | nil => simp [splitFirst]
  | cons c q ih =>
    have hc : ¬ c = sep := fun hh => h (by rw [← hh]; exact List.mem_cons_self c q)
    simp [splitFirst, hc, ih (fun hm => h (List.mem_cons_of_mem c hm))]

/-- `splitOnChar` on a list not containing the separator. -/
theorem splitOnChar_not_mem (sep : Char) (l : List Char) (h : sep ∉ l) :
    splitOnChar sep l = [l] := by
  induction l with
  | nil => rfl
  | cons c rest ih =>
    have hc : ¬ c = sep := fun hh => h (by rw [← hh]; exact List.mem_cons_self c rest)
    simp [splitOnChar, hc, ih (fun hm => h (List.mem_cons_of_mem c hm))]

/-- `splitOnChar` peels off a separator-free head piece. -/
theorem splitOnChar_append_sep (sep : Char) (p rest : List Char) (h : sep ∉ p) :
    splitOnChar sep (p ++ sep :: rest) = p :: splitOnChar sep rest := by
  induction p with
  | nil => simp [splitOnChar]
  | cons c q ih =>
    have hc : ¬ c = sep := fun hh => h (by rw [← hh]; exact List.mem_cons_self c q)
    simp [splitOnChar, hc, ih (fun hm => h (List.mem_cons_of_mem c hm))]

/-- Percent-decoding is the identity on plain characters. -/
theorem percentDecode_plain (l : List Char)
    (h : ∀ c ∈ l, plainChar c = true) : percentDecode l = l := by
  induction l with
  | nil => rfl
  | cons c rest ih =>
    have hc := h c (List.mem_cons_self c rest)
    have hplus : c ≠ '+' := by
      intro hh; rw [hh] at hc; exact absurd hc (by decide)
    have hpct : c ≠ '%' := by
      intro hh; rw [hh] at hc; exact absurd hc (by decide)
    simp [percentDecode, hplus, hpct,
      ih (fun d hd => h d (List.mem_cons_of_mem c hd))]

/-- Characters of a `joinSep` are the separator or characters of a part. -/
theorem mem_joinSep (sep : Char) (c : Char) :
    ∀ (parts : List (List Char)), c ∈ joinSep sep parts →
      c = sep ∨ ∃ p, p ∈ parts ∧ c ∈ p := by
  intro parts
  induction parts with
  | nil => intro hc; simp [joinSep] at hc
  | cons p ps ih =>
    cases ps with
    | nil =>
      intro hc
      exact Or.inr ⟨p, List.mem_cons_self p [], by simpa [joinSep] using hc⟩
    | cons q qs =>
      intro hc
      rw [show joinSep sep (p :: q :: qs) = p ++ sep :: joinSep sep (q :: qs)
        from rfl] at hc
      rcases List.mem_append.mp hc with h1 | h2
      · exact Or.inr ⟨p, List.mem_cons_self p (q :: qs), h1⟩
      · rcases List.mem_cons.mp h2 with h3 | h4
        · exact Or.inl h3
        · rcases ih h4 with h5 | ⟨r, hr, hcr⟩
          · exact Or.inl h5
          · exact Or.inr ⟨r, List.mem_cons_of_mem p hr, hcr⟩

/-- A character that is not plain, not `&` and not `=` does not occur in
a rendered query over plain pairs. -/
theorem sep_notMem_renderQuery (c : Char)
    (qs : List (List Char × List Char))
    (hq : ∀ p ∈ qs, plainL p.1 = true ∧ plainL p.2 = true)
    (hc1 : plainChar c = false) (hc2 : c ≠ '&') (hc3 : c ≠ '=') :
    c ∉ renderQuery qs := by
  intro hmem
  rcases mem_joinSep '&' c _ hmem with h1 | ⟨p, hp, hcp⟩
  · exact hc2 h1
  · rcases List.mem_map.mp hp with ⟨pr, hpr, rfl⟩
    rcases List.mem_append.mp hcp with h2 | h3
    · rw [plainL_mem (hq pr hpr).1 h2] at hc1; exact Bool.noConfusion hc1
    · rcases List.mem_cons.mp h3 with h4 | h5
      · exact hc3 h4
      · rw [plainL_mem (hq pr hpr).2 h5] at hc1; exact Bool.noConfusion hc1

/-- A list is a `isPrefixOf` any extension of itself. -/
theorem isPrefixOf_append_self (a t : List Char) :
    a.isPrefixOf (a ++ t) = true := by
  induction a with
  | nil => cases t <;> rfl
  | cons c q ih => simp [List.isPrefixOf, ih]

/-- `replaceOndus` on an `ondus://` URL swaps exactly the scheme. -/
theorem replaceOndus_scheme (t : List Char) :
    replaceOndus ("ondus://".data ++ t) = "https://".data ++ t := by
  have hlen : ("ondus://".data).length = 8 := rfl
  simp only [replaceOndus, isPrefixOf_append_self, if_true]
  rw [← hlen, List.drop_left]

/-- `queryOf` extracts the text after the first `?` when nothing after
it is a `#`. -/
theorem queryOf_split (pre q : List Char) (h1 : ('?' : Char) ∉ pre)
    (h2 : ('#' : Char) ∉ q) : queryOf (pre ++ '?' :: q) = q := by
  simp [queryOf, splitFirst_append_sep '?' pre q h1, splitFirst_not_mem '#' q h2]

/-- Parsing a rendered query over plain pairs recovers exactly the
pairs, decoded values included. -/
theorem parseQuery_renderQuery (qs : List (List Char × List Char))
    (h : ∀ p ∈ qs, plainL p.1 = true ∧ plainL p.2 = true) :
    parseQuery (renderQuery qs) = qs := by
  induction qs with
  | nil => rfl
  | cons pr rest ih =>
    have h1 := h pr (List.mem_cons_self pr rest)
    have hex : ('=' : Char) ∉ pr.1 := fun hm =>
      absurd (plainL_mem h1.1 hm) (by decide)
    have hpair : parsePair (pr.1 ++ '=' :: pr.2) = (pr.1, pr.2) := by
      simp [parsePair, splitFirst_append_sep '=' pr.1 pr.2 hex]
    have hdec1 : percentDecode pr.1 = pr.1 :=
      percentDecode_plain _ (fun c hc => plainL_mem h1.1 hc)
    have hdec2 : percentDecode pr.2 = pr.2 :=
      percentDecode_plain _ (fun c hc => plainL_mem h1.2 hc)
    have hamp : ('&' : Char) ∉ pr.1 ++ '=' :: pr.2 := by
      intro hm
      rcases List.mem_append.mp hm with h2 | h3
      · exact absurd (plainL_mem h1.1 h2) (by decide)
      · rcases List.mem_cons.mp h3 with h4 | h5
        · exact absurd h4 (by decide)
        · exact absurd (plainL_mem h1.2 h5) (by decide)
    have hpne : ¬ (pr.1 ++ '=' :: pr.2 = ([] : List Char)) := by simp
    have ih2 := ih (fun p hp => h p (List.mem_cons_of_mem pr hp))
    cases rest with
    | nil =>
      simp [parseQuery, renderQuery, joinSep,
        splitOnChar_not_mem '&' _ hamp, hpne, hpair, hdec1, hdec2]
    | cons q qs2 =>
      have hjoin : renderQuery (pr :: q :: qs2) =
          (pr.1 ++ '=' :: pr.2) ++ '&' :: renderQuery (q :: qs2) := rfl
      rw [hjoin]
      simp only [parseQuery, splitOnChar_append_sep '&' _ _ hamp,
        List.filterMap_cons, hpne, if_neg, hpair, hdec1, hdec2]
      simp only [parseQuery] at ih2
      simp [ih2]

/-- C6: for every well-formed terminal redirect location
`ondus://host/path?code=C&state=S&session_state=X&...` built from plain
components, `parseOndusLocation` preserves every query parameter
(`params` is exactly the original pair list), its `code` and `state`
lookups yield `C` and `S`, the converted `https://` URL preserves host,
path and query byte-for-byte, and the older `part_000` variant returns
`(code, state)` as well. -/
theorem parseOndusLocation_round_trip
    (host path C S X : List Char) (rest : List (List Char × List Char))
    (qs : List (List Char × List Char))
    (hqs : qs = ("code".data, C) :: ("state".data, S) ::
      ("session_state".data, X) :: rest)
    (hhost : plainL host = true) (hpath : pathPlainL path = true)
    (hq : ∀ p ∈ qs, plainL p.1 = true ∧ plainL p.2 = true) :
    parseOndusLocation (mkOndusUrl host path qs) =
      ⟨"https://".data ++ host ++ '/' :: path ++ '?' :: renderQuery qs, qs⟩ ∧
    spGet (parseOndusLocation (mkOndusUrl host path qs)).params "code".data =
      some C ∧
    spGet (parseOndusLocation (mkOndusUrl host path qs)).params "state".data =
      some S ∧
    parseOndusLocationV0 (mkOndusUrl host path qs) = (some C, some S) := by
  have hrepl : replaceOndus (mkOndusUrl host path qs) =
      "https://".data ++ host ++ '/' :: path ++ '?' :: renderQuery qs := by
    simpa [mkOndusUrl] using
      replaceOndus_scheme (host ++ '/' :: path ++ '?' :: renderQuery qs)
  have hassoc : "https://".data ++ host ++ '/' :: path ++ '?' :: renderQuery qs =
      ("https://".data ++ host ++ '/' :: path) ++ '?' :: renderQuery qs := rfl
  have hqm : ('?' : Char) ∉ "https://".data ++ host ++ '/' :: path := by
    intro hm
    rcases List.mem_append.mp hm with h12 | h3
    · rcases List.mem_append.mp h12 with h1 | h2
      · exact absurd h1 (by decide)
      · exact absurd (plainL_mem hhost h2) (by decide)
    · rcases List.mem_cons.mp h3 with h5 | h6
      · exact absurd h5 (by decide)
      · rcases pathPlainL_mem hpath h6 with h7 | h8
        · exact absurd h7 (by decide)
        · exact absurd h8 (by decide)
  have hhash : ('#' : Char) ∉ renderQuery qs :=
    sep_notMem_renderQuery '#' qs hq (by decide) (by decide) (by decide)
  have hquery : queryOf ("https://".data ++ host ++ '/' :: path ++ '?' ::
      renderQuery qs) = renderQuery qs := by
    rw [hassoc]
    exact queryOf_split _ _ hqm hhash
  have hpq : parseQuery (renderQuery qs) = qs := parseQuery_renderQuery qs hq
  have hmain : parseOndusLocation (mkOndusUrl host path qs) =
      ⟨"https://".data ++ host ++ '/' :: path ++ '?' :: renderQuery qs, qs⟩ := by
    simp only [parseOndusLocation]
    rw [hrepl, hquery, hpq]
  have hcode : spGet qs "code".data = some C := by
    rw [hqs]
    simp [spGet, List.find?]
  have hstate : spGet qs "state".data = some S := by
    rw [hqs]
    simp [spGet, List.find?]
  refine ⟨hmain, ?_, ?_, ?_⟩
  · rw [hmain]; exact hcode
  · rw [hmain]; exact hstate
  · simp only [parseOndusLocationV0]
    rw [hrepl, hquery, hpq, hcode, hstate]

/-- C6 witness: the round-trip theorem applied at concrete host, path
and parameters (with one extra parameter beyond
`code`/`state`/`session_state`). -/
theorem parseOndusLocation_round_trip_witness :
    parseOndusLocation (mkOndusUrl "h".data "p".data
      [("code".data, "c1".data), ("state".data, "s1".data),
       ("session_state".data, "x1".data), ("foo".data, "bar".data)]) =
      ⟨"https://".data ++ "h".data ++ '/' :: "p".data ++ '?' ::
        renderQuery [("code".data, "c1".data), ("state".data, "s1".data),
          ("session_state".data, "x1".data), ("foo".data, "bar".data)],
       [("code".data, "c1".data), ("state".data, "s1".data),
        ("session_state".data, "x1".data), ("foo".data, "bar".data)]⟩ ∧
    spGet (parseOndusLocation (mkOndusUrl "h".data "p".data
      [("code".data, "c1".data), ("state".data, "s1".data),
       ("session_state".data, "x1".data), ("foo".data, "bar".data)])).params
      "code".data = some "c1".data ∧
    spGet (parseOndusLocation (mkOndusUrl "h".data "p".data
      [("code".data, "c1".data), ("state".data, "s1".data),
       ("session_state".data, "x1".data), ("foo".data, "bar".data)])).params
      "state".data = some "s1".data ∧
    parseOndusLocationV0 (mkOndusUrl "h".data "p".data
      [("code".data, "c1".data), ("state".data, "s1".data),
       ("session_state".data, "x1".data), ("foo".data, "bar".data)]) =
      (some "c1".data, some "s1".data) :=
  parseOndusLocation_round_trip "h".data "p".data "c1".data "s1".data "x1".data
    [("foo".data, "bar".data)]
    [("code".data, "c1".data), ("state".data, "s1".data),
     ("session_state".data, "x1".data), ("foo".data, "bar".data)]
    rfl (by decide) (by decide) (by decide)

end Grohe
